import Mathlib

/-!
Verification of the HTD Lync6 protocol client (`htd_lync6.py`).

The module keeps an in-memory table of six zone states, builds 6-byte
command frames, and parses 14-byte zone-status records out of raw TCP
responses.  Byte strings are embedded as `List Nat` (each element a byte
value), the Python `dict` of zones as a function `Nat → Option ZoneState`
(`none` = key absent), and the Python string fields `"on"`/`"off"` as
`Bool` (`true` = `"on"`).  Transport I/O is embedded by passing the
outcome of the socket exchange explicitly.
-/

namespace HtdLync6

/-- One entry of the zone table, mirroring the dict built in
`HtdLync6Client.__init__`: `{"zone": k, "power": None, "input": None,
"vol": None, "mute": None, "source": None}`.  `none` models Python `None`.
`vol` is an `Int` because `message[9] - 196` can be negative. -/
structure ZoneState where
  zone : Nat
  power : Option Bool
  input : Option Nat
  vol : Option Int
  mute : Option Bool
  source : Option Nat
deriving Repr, DecidableEq

/-- The zone table: Python dict from zone id to state; `none` = key absent. -/
def ZoneTable : Type := Nat → Option ZoneState

/-- Construction `__init__`: keys 1..6, every field `None`. -/
def initZones : ZoneTable := fun k =>
  if 1 ≤ k ∧ k ≤ 6 then
    some { zone := k, power := none, input := none, vol := none,
           mute := none, source := none }
  else none

/-- The four field assignments of `parse_message` on the addressed entry:
`power = "on" if (message[4] & 1 << 0) >> 0 else "off"`,
`source = message[8] + 1`,
`vol = message[9] - 196 if message[9] else 0`,
`mute = "on" if (message[4] & 1 << 1) >> 1 else "off"`.
`zone` and `input` are untouched by the source. -/
def decodeFields (e : ZoneState) (m : List Nat) : ZoneState :=
  { e with
    power := some (((m.getD 4 0 &&& (1 <<< 0)) >>> 0) != 0)
    source := some (m.getD 8 0 + 1)
    vol := some (if m.getD 9 0 ≠ 0 then (m.getD 9 0 : Int) - 196 else 0)
    mute := some (((m.getD 4 0 &&& (1 <<< 1)) >>> 1) != 0) }

/-- Python `HtdLync6Client.parse_message`.  Returns the updated table and the
Python return value (`True` on update, `False` otherwise).  The `cmd`
argument of the source is unused by its logic and omitted; the
`zone_number` argument is used only in log strings and omitted.  The
table key `zone` is always present when the guard passes (construction
populates keys 1..6 and the guard restricts to 1..6), so the `Option.map`
on the entry never silently skips in reachable states. -/
def parseMessage (tab : ZoneTable) (m : List Nat) : ZoneTable × Bool :=
  if m.length ≠ 14 then (tab, false)
  else if 1 ≤ m.getD 2 0 ∧ m.getD 2 0 < 7 then
    (fun k => if k = m.getD 2 0 then
                (tab (m.getD 2 0)).map (fun e => decodeFields e m)
              else tab k,
     true)
  else (tab, false)

/-- The chunking of `parse` for a long message:
`[message[i:i + 14] for i in range(14, len(message), 14)]`.
`range(14, len, 14)` has `(len - 1) / 14` elements (natural division;
`0` whenever `len ≤ 14`), the `j`-th being `i = 14 + 14 * j`. -/
def pychunks (msg : List Nat) : List (List Nat) :=
  (List.range ((msg.length - 1) / 14)).map
    (fun j => (msg.drop (14 + 14 * j)).take 14)

/-- The Python return value of `parse`: the whole table when
`zone_number is None`, else `self.zones[zone_number]` (an absent key,
which would raise `KeyError`, is modelled as `entry none`). -/
inductive ParseResult where
  | table : ZoneTable → ParseResult
  | entry : Option ZoneState → ParseResult

/-- Return `self.zones if zone_number is None else self.zones[zone_number]`. -/
def parseReturn (tab : ZoneTable) (zn : Option Nat) : ParseResult :=
  match zn with
  | none => .table tab
  | some k => .entry (tab k)

/-- Python `HtdLync6Client.parse`: for `len > 14`, fold `parse_message` over the
14-stride chunks starting at offset 14 (the `success` flag only feeds a
log line and is dropped); for `len == 14`, parse the whole message; else
leave the table alone.  Returns the new table and the Python result. -/
def parse (tab : ZoneTable) (msg : List Nat) (zn : Option Nat) :
    ZoneTable × ParseResult :=
  let tab' :=
    if 14 < msg.length then
      (pychunks msg).foldl (fun t c => (parseMessage t c).1) tab
    else if msg.length = 14 then (parseMessage tab msg).1
    else tab
  (tab', parseReturn tab' zn)

/-- Python `HtdLync6Client.checksum`: `sum(message) & 0xFF`. -/
def checksum (m : List Nat) : Nat := m.sum &&& 0xFF

/-- The frame actually written by `send_command`:
`cmd.append(self.checksum(cmd))`. -/
def sendFrame (cmd : List Nat) : List Nat := cmd ++ [checksum cmd]

/-- Outcome of the socket exchange in `send_command`: `fail` models a
raised `socket.timeout` / `ConnectionError` (connect, send or recv
failure), `recv data` models a successful `sock.recv(1024)` returning
`data` (possibly empty). -/
inductive Transport where
  | fail : Transport
  | recv : List Nat → Transport

/-- Python `HtdLync6Client.send_command`: append the checksum, exchange on the
socket, and on success parse the response; on a caught exception return
`None` (modelled `none`) leaving the table alone. -/
def sendCommand (tab : ZoneTable) ( _cmd : List Nat) (zn : Option Nat)
    (t : Transport) : Option ParseResult × ZoneTable :=
  match t with
  | .fail => (none, tab)
  | .recv data =>
      let r := parse tab data zn
      (some r.2, r.1)

/-- Python `HtdLync6Client.set_source` up to the `send_command` call: `none`
means the function returned without sending. -/
def setSourceCmd (zone input : Nat) : Option (List Nat) :=
  if ¬(1 ≤ zone ∧ zone < 7) then none
  else if ¬(1 ≤ input ∧ input < 13) then none
  else some [0x02, 0x00, zone, 0x04,
             if input < 13 then input + 15 else input + 86]

/-- Python `HtdLync6Client.set_volume` up to the `send_command` call.  Note the
source checks only `vol in range(0, 101)` — the zone is not validated.
`volume_int = int(math.floor(60 * vol / 100))` is natural division for
`vol ≤ 100` (the float quotient `3 * vol / 5` is nowhere near an integer
unless exact, so the floor agrees with exact division). -/
def setVolumeCmd (zone vol : Nat) : Option (List Nat) :=
  if ¬(vol < 101) then none
  else
    let volumeInt := 60 * vol / 100
    let volume := if volumeInt = 60 then 0x00 else 0xFF - (59 - volumeInt)
    some [0x02, 0x01, zone, 0x15, volume]

/-- Python `HtdLync6Client.toggle_mute` up to the `send_command` call. -/
def toggleMuteCmd (zone : Nat) (mute : Bool) : Option (List Nat) :=
  if ¬(1 ≤ zone ∧ zone < 7) then none
  else some [0x02, 0x00, zone, 0x04, if mute then 0x1E else 0x1F]

/-- Python `HtdLync6Client.query_zone` up to the `send_command` call. -/
def queryZoneCmd (zone : Nat) : Option (List Nat) :=
  if ¬(1 ≤ zone ∧ zone < 7) then none
  else some [0x02, 0x00, zone, 0x05, 0x00]

/-- Python `HtdLync6Client.set_power` up to the `send_command` call. -/
def setPowerCmd (zone : Nat) (power : Bool) : Option (List Nat) :=
  if ¬(1 ≤ zone ∧ zone < 7) then none
  else some [0x02, 0x00, zone, 0x04, if power then 0x57 else 0x58]

/-- Python `HtdLync6Client.query_all`: `[0x02, 0x00, 0x00, 0x05, 0x00]`,
always sent. -/
def queryAllCmd : List Nat := [0x02, 0x00, 0x00, 0x05, 0x00]

/-- A command method as a whole: when the builder declines (`none`) the
Python function returns with no I/O and no state change; otherwise it
runs `send_command` on the built frame. -/
def runOp (tab : ZoneTable) (c : Option (List Nat)) (zn : Option Nat)
    (t : Transport) : Option ParseResult × ZoneTable :=
  match c with
  | none => (none, tab)
  | some cmd => sendCommand tab (sendFrame cmd) zn t

def setSourceOp (tab : ZoneTable) (zone input : Nat) (t : Transport) :=
  runOp tab (setSourceCmd zone input) (some zone) t

def setVolumeOp (tab : ZoneTable) (zone vol : Nat) (t : Transport) :=
  runOp tab (setVolumeCmd zone vol) (some zone) t

def toggleMuteOp (tab : ZoneTable) (zone : Nat) (mute : Bool)
    (t : Transport) :=
  runOp tab (toggleMuteCmd zone mute) (some zone) t

def queryZoneOp (tab : ZoneTable) (zone : Nat) (t : Transport) :=
  runOp tab (queryZoneCmd zone) (some zone) t

def setPowerOp (tab : ZoneTable) (zone : Nat) (power : Bool)
    (t : Transport) :=
  runOp tab (setPowerCmd zone power) (some zone) t

/-- Spec-side validity predicate for C1 (refinement comparison only):
"a window is a valid record iff byte0==0x02, byte1==0x00 and
byte3==0x05", at byte offset `i` of the raw response. -/
def specValidWindow (msg : List Nat) (i : Nat) : Bool :=
  decide (i + 14 ≤ msg.length) &&
    (msg.getD i 0 == 0x02) && (msg.getD (i + 1) 0 == 0x00) &&
    (msg.getD (i + 3) 0 == 0x05)

/-- Per-entry frame property: `zone` and `input` are never written, and a
field holding a concrete value never goes back to `None`. -/
def fieldMono (e eNew : ZoneState) : Prop :=
  eNew.zone = e.zone ∧ eNew.input = e.input ∧
  (e.power.isSome → eNew.power.isSome) ∧
  (e.mute.isSome → eNew.mute.isSome) ∧
  (e.vol.isSome → eNew.vol.isSome) ∧
  (e.source.isSome → eNew.source.isSome)

/-- A 15-byte response whose first 14 bytes form a record for zone 2 that
satisfies the signature byte0=0x02, byte1=0x00, byte3=0x05, followed by
one extra byte. -/
def msg15 : List Nat :=
  [0x02, 0x00, 0x02, 0x05, 0x01, 0, 0, 0, 0x03, 200, 0, 0, 0, 0, 0xAA]

/-- A 28-byte response: 14 filler bytes, then a 14-byte chunk whose
signature bytes are wrong (byte0=0x99, byte1=0x88, byte3=0x77) but whose
zone byte is 3. -/
def msg28 : List Nat :=
  List.replicate 14 0xEE ++
    [0x99, 0x88, 3, 0x77, 1, 0, 0, 0, 5, 220, 0, 0, 0, 0]

/-- A record for zone 2: power on, mute on, source byte 2, volume
byte 220. -/
def rec2 : List Nat := [0x02, 0, 2, 5, 3, 0, 0, 0, 2, 220, 0, 0, 0, 0]

/-- A record for zone 5: power off, mute off, source byte 7, volume
byte 0. -/
def rec5 : List Nat := [0x02, 0, 5, 5, 0, 0, 0, 0, 7, 0, 0, 0, 0, 0]

/-- A 42-byte broadcast response: 14 filler bytes then the records for
zones 2 and 5 at the stride-aligned offsets 14 and 28. -/
def msg42 : List Nat := List.replicate 14 0 ++ rec2 ++ rec5

/-- A record claiming zone 0 (out of range, must be skipped). -/
def rec0 : List Nat := [0x02, 0, 0, 5, 1, 0, 0, 0, 0, 200, 0, 0, 0, 0]

/-- A record for zone 3: power on, source byte 0, volume byte 200. -/
def rec3 : List Nat := [0x02, 0, 3, 5, 1, 0, 0, 0, 0, 200, 0, 0, 0, 0]

/-- A 42-byte broadcast response holding a zone-0 record (skipped) and a
zone-3 record (applied). -/
def msg42b : List Nat := List.replicate 14 0 ++ rec0 ++ rec3

/-- A record for zone 4 with volume byte 100, decoding to the negative
stored volume 100 − 196 = −96. -/
def recNeg : List Nat := [0x02, 0, 4, 5, 2, 0, 0, 0, 0, 100, 0, 0, 0, 0]

/-- A record for zone 1 with status byte4 = 0 and volume byte 0. -/
def recOff : List Nat := [0x02, 0, 1, 5, 0, 0, 0, 0, 3, 0, 0, 0, 0, 0]

/-- Spec-side payload formula for C7: `raw = floor(60 * percent / 100)`
over the rationals, encoded as `0x00` if `raw == 60`, else
`0xFF − (59 − raw)` with exact (integer, not truncated) subtraction. -/
def specVolPayload (v : Nat) : Int :=
  let raw : Nat := ⌊(60 * v : ℚ) / 100⌋₊
  if raw = 60 then 0 else 0xFF - ((59 : Int) - raw)

/-- The fold of `parse_message` over a list of 14-byte chunks, as
performed by the long-message branch of `parse`. -/
def applyChunks (tab : ZoneTable) (cs : List (List Nat)) : ZoneTable :=
  cs.foldl (fun t c => (parseMessage t c).1) tab

/-! ### Helper lemmas -/

theorem fieldMono_refl (e : ZoneState) : fieldMono e e :=
  ⟨rfl, rfl, id, id, id, id⟩

theorem fieldMono_trans {a b c : ZoneState} (h1 : fieldMono a b)
    (h2 : fieldMono b c) : fieldMono a c :=
  ⟨h2.1.trans h1.1, h2.2.1.trans h1.2.1,
   fun h => h2.2.2.1 (h1.2.2.1 h), fun h => h2.2.2.2.1 (h1.2.2.2.1 h),
   fun h => h2.2.2.2.2.1 (h1.2.2.2.2.1 h),
   fun h => h2.2.2.2.2.2 (h1.2.2.2.2.2 h)⟩

theorem decodeFields_mono (e : ZoneState) (m : List Nat) :
    fieldMono e (decodeFields e m) := by
  refine ⟨rfl, rfl, ?_, ?_, ?_, ?_⟩ <;> intro _ <;> simp [decodeFields]

/-- Case analysis on one `parse_message` step: either the entry at `k` is
untouched, or `k` is the (in-range) zone byte of a 14-byte chunk and the
entry is mapped through `decodeFields`. -/
theorem parseMessage_cases (tab : ZoneTable) (m : List Nat) (k : Nat) :
    (parseMessage tab m).1 k = tab k ∨
    (m.length = 14 ∧ k = m.getD 2 0 ∧ 1 ≤ k ∧ k < 7 ∧
      (parseMessage tab m).1 k = (tab k).map (fun e => decodeFields e m)) := by
  by_cases h14 : m.length ≠ 14
  · left
    unfold parseMessage
    rw [if_pos h14]
  · have h14' : ¬(m.length ≠ 14) := h14
    push_neg at h14
    by_cases hz : 1 ≤ m.getD 2 0 ∧ m.getD 2 0 < 7
    · by_cases hk : k = m.getD 2 0
      · right
        refine ⟨h14, hk, hk ▸ hz.1, hk ▸ hz.2, ?_⟩
        unfold parseMessage
        rw [if_neg h14', if_pos hz]
        dsimp only
        rw [if_pos hk, hk]
      · left
        unfold parseMessage
        rw [if_neg h14', if_pos hz]
        dsimp only
        rw [if_neg hk]
    · left
      unfold parseMessage
      rw [if_neg h14', if_neg hz]

theorem parseMessage_not14 (tab : ZoneTable) (m : List Nat)
    (h : m.length ≠ 14) : parseMessage tab m = (tab, false) := by
  unfold parseMessage
  rw [if_pos h]

theorem parseMessage_skip (tab : ZoneTable) (m : List Nat)
    (h14 : m.length = 14) (hz : ¬(1 ≤ m.getD 2 0 ∧ m.getD 2 0 < 7)) :
    parseMessage tab m = (tab, false) := by
  have h14' : ¬(m.length ≠ 14) := fun h => h h14
  unfold parseMessage
  rw [if_neg h14', if_neg hz]

theorem parseMessage_update (tab : ZoneTable) (m : List Nat)
    (h14 : m.length = 14) (hz1 : 1 ≤ m.getD 2 0) (hz2 : m.getD 2 0 < 7) :
    (parseMessage tab m).1 (m.getD 2 0)
      = (tab (m.getD 2 0)).map (fun e => decodeFields e m) ∧
    (parseMessage tab m).2 = true := by
  have h14' : ¬(m.length ≠ 14) := fun h => h h14
  unfold parseMessage
  rw [if_neg h14', if_pos ⟨hz1, hz2⟩]
  exact ⟨by dsimp only; rw [if_pos rfl], rfl⟩

theorem parseMessage_entry_ne (tab : ZoneTable) (m : List Nat) (k : Nat)
    (hk : k ≠ m.getD 2 0) : (parseMessage tab m).1 k = tab k := by
  rcases parseMessage_cases tab m k with h | ⟨_, hk2, _⟩
  · exact h
  · exact absurd hk2 hk

theorem parseMessage_isSome (tab : ZoneTable) (m : List Nat) (k : Nat) :
    ((parseMessage tab m).1 k).isSome = (tab k).isSome := by
  rcases parseMessage_cases tab m k with h | ⟨_, _, _, _, h⟩ <;> simp [h]

theorem parseMessage_mono (tab : ZoneTable) (m : List Nat) (k : Nat)
    (e eNew : ZoneState) (he : tab k = some e)
    (hNew : (parseMessage tab m).1 k = some eNew) : fieldMono e eNew := by
  rcases parseMessage_cases tab m k with h | ⟨_, _, _, _, h⟩
  · rw [h, he] at hNew
    cases hNew
    exact fieldMono_refl e
  · rw [h, he] at hNew
    simp only [Option.map_some'] at hNew
    cases hNew
    exact decodeFields_mono e m

theorem applyChunks_nil (tab : ZoneTable) : applyChunks tab [] = tab := rfl

theorem applyChunks_cons (tab : ZoneTable) (c : List Nat)
    (cs : List (List Nat)) :
    applyChunks tab (c :: cs) = applyChunks ((parseMessage tab c).1) cs :=
  rfl

/-- An entry targeted by no chunk of the list is untouched by the fold;
a chunk targets `k` when it has exactly 14 bytes and its byte 2 equals
`k` and lies in 1..6. -/
theorem applyChunks_untouched (cs : List (List Nat)) :
    ∀ (tab : ZoneTable) (k : Nat),
      (∀ c ∈ cs,
        ¬(c.length = 14 ∧ 1 ≤ c.getD 2 0 ∧ c.getD 2 0 < 7 ∧
          c.getD 2 0 = k)) →
      applyChunks tab cs k = tab k := by
  induction cs with
  | nil => intro tab k _; rfl
  | cons c cs ih =>
    intro tab k h
    have hc := h c (List.mem_cons_self c cs)
    have hstep : (parseMessage tab c).1 k = tab k := by
      rcases parseMessage_cases tab c k with h' | ⟨h14, hk, h1, h7, _⟩
      · exact h'
      · exact absurd ⟨h14, hk ▸ h1, hk ▸ h7, hk.symm⟩ hc
    rw [applyChunks_cons,
        ih _ _ (fun c' hc' => h c' (List.mem_cons_of_mem _ hc')), hstep]

theorem applyChunks_isSome (cs : List (List Nat)) :
    ∀ (tab : ZoneTable) (k : Nat),
      (applyChunks tab cs k).isSome = (tab k).isSome := by
  induction cs with
  | nil => intro tab k; rfl
  | cons c cs ih =>
    intro tab k
    rw [applyChunks_cons, ih, parseMessage_isSome]

theorem applyChunks_mono (cs : List (List Nat)) :
    ∀ (tab : ZoneTable) (k : Nat) (e eNew : ZoneState),
      tab k = some e → applyChunks tab cs k = some eNew →
      fieldMono e eNew := by
  induction cs with
  | nil =>
    intro tab k e eNew he h
    rw [applyChunks_nil, he] at h
    cases h
    exact fieldMono_refl e
  | cons c cs ih =>
    intro tab k e eNew he h
    have h1 : ((parseMessage tab c).1 k).isSome := by
      rw [parseMessage_isSome, he]; rfl
    obtain ⟨e1, he1⟩ := Option.isSome_iff_exists.mp h1
    exact fieldMono_trans (parseMessage_mono tab c k e e1 he he1)
      (ih _ _ _ _ he1 (by rwa [applyChunks_cons] at h))

theorem parse_fst (tab : ZoneTable) (msg : List Nat) (zn : Option Nat) :
    (parse tab msg zn).1 =
      if 14 < msg.length then applyChunks tab (pychunks msg)
      else if msg.length = 14 then (parseMessage tab msg).1
      else tab := rfl

theorem parse_snd (tab : ZoneTable) (msg : List Nat) (zn : Option Nat) :
    (parse tab msg zn).2 = parseReturn (parse tab msg zn).1 zn := rfl

theorem parse_isSome (tab : ZoneTable) (msg : List Nat) (zn : Option Nat)
    (k : Nat) : ((parse tab msg zn).1 k).isSome = (tab k).isSome := by
  rw [parse_fst]
  split
  · exact applyChunks_isSome _ tab k
  · split
    · exact parseMessage_isSome tab msg k
    · rfl

theorem parse_mono (tab : ZoneTable) (msg : List Nat) (zn : Option Nat)
    (k : Nat) (e eNew : ZoneState) (he : tab k = some e)
    (hNew : (parse tab msg zn).1 k = some eNew) : fieldMono e eNew := by
  rw [parse_fst] at hNew
  revert hNew
  split
  · exact fun hNew => applyChunks_mono _ tab k e eNew he hNew
  · split
    · exact fun hNew => parseMessage_mono tab msg k e eNew he hNew
    · intro hNew
      rw [he] at hNew
      cases hNew
      exact fieldMono_refl e

theorem parse_short (tab : ZoneTable) (msg : List Nat) (zn : Option Nat)
    (h : msg.length < 14) : parse tab msg zn = (tab, parseReturn tab zn) := by
  have h1 : ¬ 14 < msg.length := by omega
  have h2 : ¬ msg.length = 14 := by omega
  simp [parse, h1, h2]

/-- The power expression of the source, `(message[4] & 1 << 0) >> 0`,
is truthy exactly when bit 0 of byte 4 is set, i.e. `byte4 % 2 = 1`. -/
theorem bit0_bool (m : Nat) :
    (((m &&& (1 <<< 0)) >>> 0) != 0) = decide (m % 2 = 1) := by
  have h1 : (1 : Nat) <<< 0 = 1 := rfl
  rw [h1, Nat.shiftRight_zero, Nat.and_one_is_mod]
  rcases Nat.mod_two_eq_zero_or_one m with h | h <;> rw [h] <;> rfl

/-- The mute expression of the source, `(message[4] & 1 << 1) >> 1`,
is truthy exactly when bit 1 of byte 4 is set, i.e. `byte4 / 2 % 2 = 1`. -/
theorem bit1_bool (m : Nat) :
    (((m &&& (1 <<< 1)) >>> 1) != 0) = decide (m / 2 % 2 = 1) := by
  have h2 : (1 : Nat) <<< 1 = 2 := rfl
  have hand : m &&& 2 = (m.testBit 1).toNat * 2 := by
    have h := Nat.and_two_pow m 1
    norm_num at h
    exact h
  have hshift : ((m.testBit 1).toNat * 2) >>> 1 = (m.testBit 1).toNat := by
    rw [Nat.shiftRight_eq_div_pow]
    norm_num
  have ht : m.testBit 1 = decide (m / 2 ^ 1 % 2 = 1) := Nat.testBit_to_div_mod
  norm_num at ht
  rw [h2, hand, hshift, ← ht]
  cases m.testBit 1 <;> rfl

/-! ### Claims -/

/-- C5: a raw response shorter than 14 bytes leaves the zone table
completely unchanged and returns the prior snapshot (the requested zone
entry, or the whole table for a broadcast query); it is not fatal. -/
theorem C5_short_response (tab : ZoneTable) (msg : List Nat)
    (zn : Option Nat) (h : msg.length < 14) :
    (parse tab msg zn).1 = tab ∧ (parse tab msg zn).2 = parseReturn tab zn := by
  rw [parse_short tab msg zn h]
  exact ⟨rfl, rfl⟩

theorem C5_short_response_witness :
    (parse initZones [0x02, 0x00] (some 2)).1 = initZones ∧
    (parse initZones [0x02, 0x00] (some 2)).2 = parseReturn initZones (some 2) :=
  C5_short_response initZones [0x02, 0x00] (some 2) (by decide)

/-- C8: the checksum equals the unsigned 8-bit sum (mod 256) of the
preceding frame bytes and is appended as the final byte of the
transmitted frame; for `[0x02,0x00,0x03,0x05,0x00]` it is `0x0A`. -/
theorem C8_checksum (cmd : List Nat) :
    checksum cmd = cmd.sum % 256 ∧
    sendFrame cmd = cmd ++ [cmd.sum % 256] ∧
    (sendFrame cmd).getLast? = some (cmd.sum % 256) ∧
    (sendFrame cmd).dropLast = cmd ∧
    checksum [0x02, 0x00, 0x03, 0x05, 0x00] = 0x0A := by
  have h : checksum cmd = cmd.sum % 256 :=
    Nat.and_pow_two_sub_one_eq_mod cmd.sum 8
  refine ⟨h, ?_, ?_, ?_, by decide⟩
  · rw [sendFrame, h]
  · rw [sendFrame, h]
    exact List.getLast?_concat cmd
  · rw [sendFrame]
    exact List.dropLast_concat

/-- C2 counterexample: a zero-byte response does NOT fail the call — the
code parses it, returns the prior snapshot for the requested zone, and
leaves the table unchanged, contradicting the claim that zero bytes
yield a transport failure result. -/
theorem C2_counterexample :
    sendCommand initZones (sendFrame [0x02, 0x00, 0x03, 0x05, 0x00])
        (some 3) (.recv [])
      = (some (.entry (initZones 3)), initZones) ∧
    (initZones 3).isSome := ⟨rfl, rfl⟩

/-- C2 amended: a connection, write or read-timeout failure makes the
call return the failure result `None` with the zone table untouched; a
zero-byte (indeed any shorter-than-14-byte) response is instead parsed
successfully, returning the prior snapshot, also with the table
untouched. -/
theorem C2_transport (tab : ZoneTable) (cmd : List Nat) (zn : Option Nat) :
    sendCommand tab cmd zn .fail = (none, tab) ∧
    (∀ data : List Nat, data.length < 14 →
      sendCommand tab cmd zn (.recv data)
        = (some (parseReturn tab zn), tab)) := by
  refine ⟨rfl, fun data hd => ?_⟩
  show (some (parse tab data zn).2, (parse tab data zn).1) = _
  rw [parse_short tab data zn hd]

theorem C2_transport_witness :
    sendCommand initZones queryAllCmd none .fail = (none, initZones) ∧
    sendCommand initZones queryAllCmd none (.recv [])
      = (some (parseReturn initZones none), initZones) :=
  ⟨(C2_transport initZones queryAllCmd none).1,
   (C2_transport initZones queryAllCmd none).2 [] (by decide)⟩

/-- C3 counterexample: `set_volume` does not validate the zone — with
the out-of-range zone 7 and a valid volume it still builds a frame and
sends it, contradicting the claim that every builder validates the zone
and that `setVolume` with an out-of-range zone sends nothing. -/
theorem C3_counterexample :
    setVolumeCmd 7 50 = some [0x02, 0x01, 7, 0x15, 226] ∧
    setVolumeCmd 7 50 ≠ none := by
  exact ⟨by decide, by decide⟩

/-- C3 amended: `set_power`, `toggle_mute`, `query_zone` validate the
zone, `set_source` validates zone and input, and each is a no-op on
invalid input (no I/O, state unchanged); `set_volume` validates only the
percent (0..100) and builds a frame for any zone whatsoever;
`setSource(zone=7, input=3)` sends nothing. -/
theorem C3_validation :
    (∀ (tab : ZoneTable) (z : Nat) (p : Bool) (t : Transport),
      ¬(1 ≤ z ∧ z < 7) → setPowerOp tab z p t = (none, tab)) ∧
    (∀ (tab : ZoneTable) (z : Nat) (mu : Bool) (t : Transport),
      ¬(1 ≤ z ∧ z < 7) → toggleMuteOp tab z mu t = (none, tab)) ∧
    (∀ (tab : ZoneTable) (z : Nat) (t : Transport),
      ¬(1 ≤ z ∧ z < 7) → queryZoneOp tab z t = (none, tab)) ∧
    (∀ (tab : ZoneTable) (z i : Nat) (t : Transport),
      (¬(1 ≤ z ∧ z < 7) ∨ ¬(1 ≤ i ∧ i < 13)) →
        setSourceOp tab z i t = (none, tab)) ∧
    (∀ (tab : ZoneTable) (z v : Nat) (t : Transport),
      100 < v → setVolumeOp tab z v t = (none, tab)) ∧
    (∀ (tab : ZoneTable) (t : Transport),
      setSourceOp tab 7 3 t = (none, tab)) ∧
    (∀ z v : Nat, v ≤ 100 → (setVolumeCmd z v).isSome) := by
  refine ⟨?_, ?_, ?_, ?_, ?_, ?_, ?_⟩
  · intro tab z p t hz
    unfold setPowerOp
    have hc : setPowerCmd z p = none := by
      unfold setPowerCmd
      rw [if_pos hz]
    rw [hc]
    rfl
  · intro tab z mu t hz
    unfold toggleMuteOp
    have hc : toggleMuteCmd z mu = none := by
      unfold toggleMuteCmd
      rw [if_pos hz]
    rw [hc]
    rfl
  · intro tab z t hz
    unfold queryZoneOp
    have hc : queryZoneCmd z = none := by
      unfold queryZoneCmd
      rw [if_pos hz]
    rw [hc]
    rfl
  · intro tab z i t h
    unfold setSourceOp
    have hc : setSourceCmd z i = none := by
      unfold setSourceCmd
      rcases h with hz | hi
      · rw [if_pos hz]
      · by_cases hz : ¬(1 ≤ z ∧ z < 7)
        · rw [if_pos hz]
        · rw [if_neg hz, if_pos hi]
    rw [hc]
    rfl
  · intro tab z v t hv
    unfold setVolumeOp
    have hc : setVolumeCmd z v = none := by
      unfold setVolumeCmd
      rw [if_pos (by omega : ¬ v < 101)]
    rw [hc]
    rfl
  · intro tab t
    unfold setSourceOp
    have hc : setSourceCmd 7 3 = none := by decide
    rw [hc]
    rfl
  · intro z v hv
    unfold setVolumeCmd
    rw [if_neg (not_not_intro (by omega : v < 101))]
    rfl

theorem C3_validation_witness :
    setPowerOp initZones 0 true .fail = (none, initZones) ∧
    toggleMuteOp initZones 7 true .fail = (none, initZones) ∧
    queryZoneOp initZones 9 .fail = (none, initZones) ∧
    setSourceOp initZones 3 13 .fail = (none, initZones) ∧
    setVolumeOp initZones 3 101 .fail = (none, initZones) ∧
    setSourceOp initZones 7 3 .fail = (none, initZones) ∧
    (setVolumeCmd 7 50).isSome :=
  ⟨C3_validation.1 initZones 0 true .fail (by decide),
   C3_validation.2.1 initZones 7 true .fail (by decide),
   C3_validation.2.2.1 initZones 9 .fail (by decide),
   C3_validation.2.2.2.1 initZones 3 13 .fail (Or.inr (by decide)),
   C3_validation.2.2.2.2.1 initZones 3 101 .fail (by decide),
   C3_validation.2.2.2.2.2.1 initZones .fail,
   C3_validation.2.2.2.2.2.2 7 50 (by decide)⟩

/-- C6: a decoded valid record sets the addressed entry to
power = (bit0 of byte4), mute = (bit1 of byte4), source = byte8 + 1,
volume = 0 if byte9 == 0 else byte9 − 196; concretely byte4=3 gives
power on and mute on, byte4=0 gives both off, byte8=3 gives source 4,
byte9=0 gives volume 0 and byte9=200 gives volume 4. -/
theorem C6_decode (tab : ZoneTable) (m : List Nat) (h14 : m.length = 14)
    (hz1 : 1 ≤ m.getD 2 0) (hz2 : m.getD 2 0 < 7) (e : ZoneState)
    (he : tab (m.getD 2 0) = some e) :
    ((parseMessage tab m).1 (m.getD 2 0) = some (decodeFields e m) ∧
     (decodeFields e m).power = some (decide (m.getD 4 0 % 2 = 1)) ∧
     (decodeFields e m).mute = some (decide (m.getD 4 0 / 2 % 2 = 1)) ∧
     (decodeFields e m).source = some (m.getD 8 0 + 1) ∧
     (decodeFields e m).vol
       = some (if m.getD 9 0 = 0 then 0 else (m.getD 9 0 : Int) - 196)) ∧
    ((parse initZones rec2 (some 2)).1 2
       = some ⟨2, some true, none, some 24, some true, some 3⟩ ∧
     (parse initZones recOff (some 1)).1 1
       = some ⟨1, some false, none, some 0, some false, some 4⟩ ∧
     (parse initZones rec3 (some 3)).1 3
       = some ⟨3, some true, none, some 4, some false, some 1⟩) := by
  refine ⟨⟨?_, ?_, ?_, rfl, ?_⟩, by decide, by decide, by decide⟩
  · rw [(parseMessage_update tab m h14 hz1 hz2).1, he]
    rfl
  · exact congrArg some (bit0_bool (m.getD 4 0))
  · exact congrArg some (bit1_bool (m.getD 4 0))
  · show some (if m.getD 9 0 ≠ 0 then (m.getD 9 0 : Int) - 196 else 0) = _
    by_cases h0 : m.getD 9 0 = 0
    · rw [if_neg (not_not_intro h0), if_pos h0]
    · rw [if_pos h0, if_neg h0]

theorem C6_decode_witness :
    ((parseMessage initZones rec2).1 (rec2.getD 2 0)
       = some (decodeFields ⟨2, none, none, none, none, none⟩ rec2) ∧
     (decodeFields ⟨2, none, none, none, none, none⟩ rec2).power
       = some (decide (rec2.getD 4 0 % 2 = 1)) ∧
     (decodeFields ⟨2, none, none, none, none, none⟩ rec2).mute
       = some (decide (rec2.getD 4 0 / 2 % 2 = 1)) ∧
     (decodeFields ⟨2, none, none, none, none, none⟩ rec2).source
       = some (rec2.getD 8 0 + 1) ∧
     (decodeFields ⟨2, none, none, none, none, none⟩ rec2).vol
       = some (if rec2.getD 9 0 = 0 then 0 else (rec2.getD 9 0 : Int) - 196)) ∧
    ((parse initZones rec2 (some 2)).1 2
       = some ⟨2, some true, none, some 24, some true, some 3⟩ ∧
     (parse initZones recOff (some 1)).1 1
       = some ⟨1, some false, none, some 0, some false, some 4⟩ ∧
     (parse initZones rec3 (some 3)).1 3
       = some ⟨3, some true, none, some 4, some false, some 1⟩) :=
  C6_decode initZones rec2 rfl (by decide) (by decide)
    ⟨2, none, none, none, none, none⟩ rfl

/-- C7: for a valid percent, `set_volume` builds the frame
`[0x02, 0x01, zone, 0x15, payload]` whose payload agrees with the spec
formula `raw = floor(60 * percent / 100)`, `0x00` if `raw == 60` else
`0xFF − (59 − raw)` with exact integer arithmetic; percent 100 encodes
payload 0x00 and percent 0 encodes payload 0xC4. -/
theorem C7_set_volume (z v : Nat) (hv : v ≤ 100) :
    setVolumeCmd z v
      = some [0x02, 0x01, z, 0x15,
              if 60 * v / 100 = 60 then 0x00
              else 0xFF - (59 - 60 * v / 100)] ∧
    ((if 60 * v / 100 = 60 then (0x00 : Nat)
      else 0xFF - (59 - 60 * v / 100)) : Int) = specVolPayload v ∧
    setVolumeCmd z 100 = some [0x02, 0x01, z, 0x15, 0x00] ∧
    setVolumeCmd z 0 = some [0x02, 0x01, z, 0x15, 0xC4] := by
  have hne : ¬¬(v < 101) := not_not_intro (by omega)
  have hraw : ⌊(60 * v : ℚ) / 100⌋₊ = 60 * v / 100 := by
    have hcast : ((60 * v : ℕ) : ℚ) = (60 * v : ℚ) := by push_cast; ring
    rw [← hcast, show ((100 : ℚ)) = ((100 : ℕ) : ℚ) by norm_num,
        Nat.floor_div_nat, Nat.floor_natCast]
  have hle : 60 * v / 100 ≤ 60 := by
    calc 60 * v / 100 ≤ 6000 / 100 := Nat.div_le_div_right (by omega)
    _ = 60 := by norm_num
  refine ⟨?_, ?_, ?_, ?_⟩
  · unfold setVolumeCmd
    rw [if_neg hne]
  · unfold specVolPayload
    rw [hraw]
    by_cases h60 : 60 * v / 100 = 60
    · rw [if_pos h60, if_pos h60]
      rfl
    · rw [if_neg h60, if_neg h60]
      have h59 : 60 * v / 100 ≤ 59 := by omega
      omega
  · unfold setVolumeCmd
    norm_num
  · unfold setVolumeCmd
    norm_num

theorem C7_set_volume_witness :
    (setVolumeCmd 4 75
      = some [0x02, 0x01, 4, 0x15,
              if 60 * 75 / 100 = 60 then 0x00
              else 0xFF - (59 - 60 * 75 / 100)] ∧
    ((if 60 * 75 / 100 = 60 then (0x00 : Nat)
      else 0xFF - (59 - 60 * 75 / 100)) : Int) = specVolPayload 75 ∧
    setVolumeCmd 4 100 = some [0x02, 0x01, 4, 0x15, 0x00] ∧
    setVolumeCmd 4 0 = some [0x02, 0x01, 4, 0x15, 0xC4]) :=
  C7_set_volume 4 75 (by decide)

/-- C4 counterexample: a processed valid record with byte9 = 100 leaves
the snapshot volume at 100 − 196 = −96, which is neither unknown nor in
0..100, contradicting the claimed invariant for every byte9. -/
theorem C4_counterexample :
    (parse initZones recNeg (some 4)).2
      = .entry (some ⟨4, some false, none, some (-96), some true, some 1⟩) ∧
    ((-96 : Int) < 0) := ⟨rfl, by decide⟩

/-- C4 amended: the decoded volume is always a concrete integer in
−195..59 (so never above 100 but possibly negative); it lies in 0..100
exactly when byte9 is 0 or at least 196 — the byte values produced by
the volume encoding of the device itself. -/
theorem C4_vol_range (tab : ZoneTable) (m : List Nat) (h14 : m.length = 14)
    (hz1 : 1 ≤ m.getD 2 0) (hz2 : m.getD 2 0 < 7) (hB : m.getD 9 0 ≤ 255)
    (e : ZoneState) (he : tab (m.getD 2 0) = some e) :
    ∃ v : Int,
      (parseMessage tab m).1 (m.getD 2 0) = some (decodeFields e m) ∧
      (decodeFields e m).vol = some v ∧
      (-195 ≤ v ∧ v ≤ 59 ∧
        ((0 ≤ v ∧ v ≤ 100) ↔ (m.getD 9 0 = 0 ∨ 196 ≤ m.getD 9 0))) := by
  refine ⟨if m.getD 9 0 ≠ 0 then (m.getD 9 0 : Int) - 196 else 0,
    ?_, rfl, ?_⟩
  · rw [(parseMessage_update tab m h14 hz1 hz2).1, he]
    rfl
  · by_cases h0 : m.getD 9 0 = 0
    · rw [if_neg (not_not_intro h0)]
      omega
    · rw [if_pos h0]
      omega

theorem C4_vol_range_witness :
    ∃ v : Int,
      (parseMessage initZones recNeg).1 (recNeg.getD 2 0)
        = some (decodeFields ⟨4, none, none, none, none, none⟩ recNeg) ∧
      (decodeFields ⟨4, none, none, none, none, none⟩ recNeg).vol = some v ∧
      (-195 ≤ v ∧ v ≤ 59 ∧
        ((0 ≤ v ∧ v ≤ 100) ↔
          (recNeg.getD 9 0 = 0 ∨ 196 ≤ recNeg.getD 9 0))) :=
  C4_vol_range initZones recNeg rfl (by decide) (by decide) (by decide)
    ⟨4, none, none, none, none, none⟩ rfl

/-- C10: a successful record update rewrites exactly the four status
fields of the one addressed entry, always to concrete (`some`) values,
keeps the `zone` and `input` fields of that entry, and leaves every other
entry alone; moreover across any `parse`, `zone` and `input` never
change and no field ever returns to unknown once concrete. -/
theorem C10_update_frame :
    (∀ (tab : ZoneTable) (m : List Nat), m.length = 14 →
      1 ≤ m.getD 2 0 → m.getD 2 0 < 7 →
      ∀ e : ZoneState, tab (m.getD 2 0) = some e →
        (parseMessage tab m).1 (m.getD 2 0) = some (decodeFields e m) ∧
        (decodeFields e m).zone = e.zone ∧
        (decodeFields e m).input = e.input ∧
        (decodeFields e m).power.isSome ∧
        (decodeFields e m).mute.isSome ∧
        (decodeFields e m).vol.isSome ∧
        (decodeFields e m).source.isSome ∧
        (∀ k, k ≠ m.getD 2 0 → (parseMessage tab m).1 k = tab k)) ∧
    (∀ (tab : ZoneTable) (msg : List Nat) (zn : Option Nat) (k : Nat)
        (e eNew : ZoneState), tab k = some e →
      (parse tab msg zn).1 k = some eNew → fieldMono e eNew) := by
  constructor
  · intro tab m h14 hz1 hz2 e he
    refine ⟨?_, rfl, rfl, rfl, rfl, rfl, rfl, ?_⟩
    · rw [(parseMessage_update tab m h14 hz1 hz2).1, he]
      rfl
    · intro k hk
      exact parseMessage_entry_ne tab m k hk
  · intro tab msg zn k e eNew he h
    exact parse_mono tab msg zn k e eNew he h

theorem C10_update_frame_witness :
    ((parseMessage initZones rec2).1 (rec2.getD 2 0)
       = some (decodeFields ⟨2, none, none, none, none, none⟩ rec2) ∧
     (decodeFields ⟨2, none, none, none, none, none⟩ rec2).zone
       = ZoneState.zone ⟨2, none, none, none, none, none⟩ ∧
     (decodeFields ⟨2, none, none, none, none, none⟩ rec2).input
       = ZoneState.input ⟨2, none, none, none, none, none⟩ ∧
     (decodeFields ⟨2, none, none, none, none, none⟩ rec2).power.isSome ∧
     (decodeFields ⟨2, none, none, none, none, none⟩ rec2).mute.isSome ∧
     (decodeFields ⟨2, none, none, none, none, none⟩ rec2).vol.isSome ∧
     (decodeFields ⟨2, none, none, none, none, none⟩ rec2).source.isSome ∧
     (∀ k, k ≠ rec2.getD 2 0 →
       (parseMessage initZones rec2).1 k = initZones k)) ∧
    fieldMono ⟨2, none, none, none, none, none⟩
      ⟨2, some true, none, some 24, some true, some 3⟩ :=
  ⟨C10_update_frame.1 initZones rec2 rfl (by decide) (by decide)
     ⟨2, none, none, none, none, none⟩ rfl,
   C10_update_frame.2 initZones rec2 (some 2) 2
     ⟨2, none, none, none, none, none⟩
     ⟨2, some true, none, some 24, some true, some 3⟩ rfl (by decide)⟩

/-- C9: a record whose zone byte is outside 1..6 is skipped without any
mutation, other valid records of the same response are still applied,
and the key set of the zone table stays exactly 1..6 across any parse. -/
theorem C9_zone_guard :
    (∀ (tab : ZoneTable) (m : List Nat), m.length = 14 →
      ¬(1 ≤ m.getD 2 0 ∧ m.getD 2 0 < 7) →
      parseMessage tab m = (tab, false)) ∧
    (∀ (tab : ZoneTable) (msg : List Nat) (zn : Option Nat),
      (∀ k, (tab k).isSome ↔ (1 ≤ k ∧ k ≤ 6)) →
      ∀ k, ((parse tab msg zn).1 k).isSome ↔ (1 ≤ k ∧ k ≤ 6)) ∧
    ((parse initZones msg42b none).1 3
       = some ⟨3, some true, none, some 4, some false, some 1⟩) ∧
    (∀ k, k ≠ 3 → (parse initZones msg42b none).1 k = initZones k) := by
  refine ⟨fun tab m h14 hz => parseMessage_skip tab m h14 hz, ?_,
    by decide, ?_⟩
  · intro tab msg zn h k
    rw [parse_isSome]
    exact h k
  · intro k hk
    rw [parse_fst, if_pos (by decide : 14 < msg42b.length),
        (by decide : pychunks msg42b = [rec0, rec3])]
    apply applyChunks_untouched
    intro c hcm
    rcases List.mem_cons.mp hcm with h1 | hr
    · subst h1
      rintro ⟨-, hge, -, -⟩
      exact absurd hge (by decide)
    · have hc3 : c = rec3 := by
        rcases List.mem_cons.mp hr with h | h
        · exact h
        · exact absurd h (List.not_mem_nil c)
      subst hc3
      rintro ⟨-, -, -, h3⟩
      exact hk ((show (3 : Nat) = k from h3).symm)

theorem C9_zone_guard_witness :
    parseMessage initZones rec0 = (initZones, false) ∧
    (((parse initZones msg42b none).1 7).isSome ↔ (1 ≤ 7 ∧ 7 ≤ 6)) ∧
    (parse initZones msg42b none).1 1 = initZones 1 :=
  ⟨C9_zone_guard.1 initZones rec0 rfl (by decide),
   C9_zone_guard.2.1 initZones msg42b none
     (fun k => by by_cases hk : 1 ≤ k ∧ k ≤ 6 <;> simp [initZones, hk]) 7,
   C9_zone_guard.2.2.2 1 (by decide)⟩

/-- C1 counterexample: the code performs no sliding-window scan and no
signature check.  In a 15-byte response, a record satisfying the claimed
signature (`byte0=0x02, byte1=0x00, byte3=0x05`) for zone 2 sits at
offset 0, yet zone 2 is left at its initial (never updated) state; in a
28-byte response, the 14-aligned chunk at offset 14 fails the claimed
signature entirely, yet zone 3 IS updated. -/
theorem C1_counterexample :
    specValidWindow msg15 0 = true ∧
    msg15.getD 2 0 = 2 ∧
    (parse initZones msg15 (some 2)).1 2 = initZones 2 ∧
    initZones 2 = some ⟨2, none, none, none, none, none⟩ ∧
    specValidWindow msg28 14 = false ∧
    (parse initZones msg28 (some 3)).1 3
      = some ⟨3, some true, none, some 24, some false, some 6⟩ := by
  refine ⟨by decide, by decide, by decide, by decide, by decide, by decide⟩

/-- C1 amended: a response longer than 14 bytes is split into 14-byte
chunks at the fixed stride offsets 14, 28, … (the first 14 bytes are
skipped; no byte-granular sliding scan); a chunk updates the table iff
it has exactly 14 bytes and its byte2 is a zone in 1..6 — bytes 0, 1
and 3 are never examined.  A 42-byte response carrying records for
zones 2 and 5 at the aligned offsets 14 and 28 updates exactly those
two entries and leaves zones 1, 3, 4, 6 untouched. -/
theorem C1_code_scan :
    (∀ (tab : ZoneTable) (msg : List Nat) (zn : Option Nat),
      14 < msg.length →
      (parse tab msg zn).1 = applyChunks tab (pychunks msg)) ∧
    (∀ (tab : ZoneTable) (msg : List Nat) (zn : Option Nat) (k : Nat),
      14 < msg.length →
      (∀ c ∈ pychunks msg,
        ¬(c.length = 14 ∧ 1 ≤ c.getD 2 0 ∧ c.getD 2 0 < 7 ∧
          c.getD 2 0 = k)) →
      (parse tab msg zn).1 k = tab k) ∧
    pychunks msg15 = [[0xAA]] ∧
    (parse initZones msg42 none).1 2
      = some ⟨2, some true, none, some 24, some true, some 3⟩ ∧
    (parse initZones msg42 none).1 5
      = some ⟨5, some false, none, some 0, some false, some 8⟩ ∧
    (∀ k, k ≠ 2 → k ≠ 5 → (parse initZones msg42 none).1 k = initZones k) := by
  refine ⟨?_, ?_, by decide, by decide, by decide, ?_⟩
  · intro tab msg zn h
    rw [parse_fst, if_pos h]
  · intro tab msg zn k h hc
    rw [parse_fst, if_pos h]
    exact applyChunks_untouched _ _ _ hc
  · intro k h2 h5
    rw [parse_fst, if_pos (by decide : 14 < msg42.length),
        (by decide : pychunks msg42 = [rec2, rec5])]
    apply applyChunks_untouched
    intro c hcm
    rcases List.mem_cons.mp hcm with h1 | hr
    · subst h1
      rintro ⟨-, -, -, h3⟩
      exact h2 ((show (2 : Nat) = k from h3).symm)
    · have hc5 : c = rec5 := by
        rcases List.mem_cons.mp hr with h | h
        · exact h
        · exact absurd h (List.not_mem_nil c)
      subst hc5
      rintro ⟨-, -, -, h3⟩
      exact h5 ((show (5 : Nat) = k from h3).symm)

theorem C1_code_scan_witness :
    (parse initZones msg15 (some 2)).1
      = applyChunks initZones (pychunks msg15) ∧
    (parse initZones msg15 (some 2)).1 4 = initZones 4 ∧
    (parse initZones msg42 none).1 6 = initZones 6 :=
  ⟨C1_code_scan.1 initZones msg15 (some 2) (by decide),
   C1_code_scan.2.1 initZones msg15 (some 2) 4 (by decide) (by decide),
   C1_code_scan.2.2.2.2.2 6 (by decide) (by decide)⟩

end HtdLync6
